import Mathlib

/-
Verification of the failure-classification and fallback-retry policy of the
openclaw gateway.  The classifier predicates, the handler registry and the
top-level unhandled-rejection policy are embedded from
src/infra/unhandled-rejections.ts; the fallback orchestrator and the
extractErrorCode leaf are modelled from the specification because their
sources are not part of the repository snapshot.
-/

namespace OpenClaw

/-! ## String helpers

JavaScript regular-expression tests used by the classifier are all plain
substring tests (with an optional separator character), so the embedding
uses case-folded substring search. -/

/-- listStartsWith pat s is true when pat is an initial segment of s. -/
def listStartsWith : List Char → List Char → Bool
  | [], _ => true
  | _ :: _, [] => false
  | a :: as, b :: bs => a == b && listStartsWith as bs

/-- listContainsSeq pat s is true when pat occurs contiguously inside s. -/
def listContainsSeq (pat : List Char) : List Char → Bool
  | [] => listStartsWith pat []
  | c :: rest => listStartsWith pat (c :: rest) || listContainsSeq pat rest

/-- strContains s pat is true when pat occurs as a substring of s. -/
def strContains (s pat : String) : Bool :=
  listContainsSeq pat.toList s.toList

/-- Case-folded copy of a string, modelling the i flag of the regexes. -/
def lowerStr (s : String) : String :=
  String.mk (s.toList.map Char.toLower)

/-! ## The error-value model

ErrorSignal values are arbitrary JavaScript values.  The embedding covers
null, undefined, numbers, strings and objects; an object carries the
properties probed by the classifier (name, message, code, status,
statusCode, cause, errors) and the three instanceof facts the code tests
(Error, TypeError, AggregateError).  A property that is absent on the
JavaScript object is modelled as the undefined value, which the probing
code cannot distinguish from a present-but-undefined property. -/

inductive ErrVal where
  | null
  | undefined
  | num (n : Int)
  | str (s : String)
  | obj (name message code status statusCode cause : ErrVal)
        (errors : List ErrVal)
        (isError isTypeError isAggregateError : Bool)
deriving Repr

/-- JavaScript truthiness for the modelled values. -/
def truthy : ErrVal → Bool
  | .null => false
  | .undefined => false
  | .num n => n != 0
  | .str s => s != ""
  | .obj _ _ _ _ _ _ _ _ _ _ => true

/-- JavaScript String(v) coercion for the modelled values; a plain object
stringifies through the default Object toString. -/
def jsToString : ErrVal → String
  | .null => "null"
  | .undefined => "undefined"
  | .num n => Int.repr n
  | .str s => s
  | .obj _ _ _ _ _ _ _ _ _ _ => "[object Object]"

/-- The nullish-coalescing operator a ?? b. -/
def jsCoalesce (a b : ErrVal) : ErrVal :=
  match a with
  | .null => b
  | .undefined => b
  | v => v

/-! ## Fixed code sets and rate-limit text patterns
(unhandled-rejections.ts lines 8 to 46) -/

def FATAL_ERROR_CODES : List String :=
  ["ERR_OUT_OF_MEMORY", "ERR_SCRIPT_EXECUTION_TIMEOUT", "ERR_WORKER_OUT_OF_MEMORY",
   "ERR_WORKER_UNCAUGHT_EXCEPTION", "ERR_WORKER_INITIALIZATION_FAILED"]

def CONFIG_ERROR_CODES : List String :=
  ["INVALID_CONFIG", "MISSING_API_KEY", "MISSING_CREDENTIALS"]

def TRANSIENT_NETWORK_CODES : List String :=
  ["ECONNRESET", "ECONNREFUSED", "ENOTFOUND", "ETIMEDOUT", "ESOCKETTIMEDOUT",
   "ECONNABORTED", "EPIPE", "EHOSTUNREACH", "ENETUNREACH", "EAI_AGAIN",
   "UND_ERR_CONNECT_TIMEOUT", "UND_ERR_DNS_RESOLVE_FAILED", "UND_ERR_CONNECT",
   "UND_ERR_SOCKET", "UND_ERR_HEADERS_TIMEOUT", "UND_ERR_BODY_TIMEOUT"]

/-- Substring test for the RATE_LIMIT_PATTERNS regex list: the unseparated,
underscore and space variants of the two-word patterns, the case-sensitive
literal 429, and the single-word case-insensitive patterns. -/
def matchesRateLimitPattern (message : String) : Bool :=
  let m := lowerStr message
  strContains m "ratelimit" || strContains m "rate_limit" || strContains m "rate limit" ||
  strContains m "too many requests" ||
  strContains message "429" ||
  strContains m "quota" ||
  strContains m "resourceexhausted" || strContains m "resource_exhausted" ||
  strContains m "resource exhausted" ||
  strContains m "overloaded"

/-! ## Cause and code extraction -/

/-- getErrorCause (unhandled-rejections.ts lines 48 to 53): undefined for a
non-object, otherwise the cause property. -/
def getErrorCause : ErrVal → ErrVal
  | .obj _ _ _ _ _ cause _ _ _ _ => cause
  | _ => .undefined

/-- Modelled from the spec: extractErrorCode lives in src/infra/errors.ts,
which is not part of the repository snapshot.  Per the spec a code lookup
reads the code property of a structured error value; the value is returned
when it is a string and is otherwise absent. -/
def extractErrorCode : ErrVal → Option String
  | .obj _ _ (.str c) _ _ _ _ _ _ _ => some c
  | _ => none

/-- extractErrorCodeWithCause (lines 55 to 61): the own code when truthy,
otherwise the code of the one-level cause. -/
def extractErrorCodeWithCause (err : ErrVal) : Option String :=
  match extractErrorCode err with
  | some c => if c = "" then extractErrorCode (getErrorCause err) else some c
  | none => extractErrorCode (getErrorCause err)

/-! ## The classifier predicates -/

/-- Stringification of the name property as the source performs it: an
absent property reads as the empty string, anything else goes through
String(v). -/
def nameString : ErrVal → String
  | .undefined => ""
  | v => jsToString v

/-- The message property as the source reads it: only a string-typed
message is used, everything else reads as the empty string. -/
def strMessage : ErrVal → String
  | .str s => s
  | _ => ""

/-- isAbortError (lines 67 to 81). -/
def isAbortError : ErrVal → Bool
  | .obj name message _ _ _ _ _ _ _ _ =>
      if nameString name = "AbortError" then true
      else strMessage message = "This operation was aborted"
  | _ => false

/-- isFatalError (lines 83 to 86). -/
def isFatalError (err : ErrVal) : Bool :=
  match extractErrorCodeWithCause err with
  | some c => FATAL_ERROR_CODES.contains c
  | none => false

/-- isConfigError (lines 88 to 91). -/
def isConfigError (err : ErrVal) : Bool :=
  match extractErrorCodeWithCause err with
  | some c => CONFIG_ERROR_CODES.contains c
  | none => false

/-- The status-429 test of isRateLimitError: status ?? statusCode compared
with the number 429 and the string 429. -/
def is429 : ErrVal → Bool
  | .num n => n == 429
  | .str s => s == "429"
  | _ => false

/-- isRateLimitError (lines 101 to 128).  The source guard cause !== err is
reference inequality; in this acyclic value model the cause is a proper
subterm of the object and can never be the object itself, so the guard is
always satisfied and only the truthiness test remains.  The graph model
below keeps the guard literally for the cyclic-heap analysis. -/
def isRateLimitError : ErrVal → Bool
  | .null => false
  | .undefined => false
  | .num n => if n == 0 then false else matchesRateLimitPattern (Int.repr n)
  | .str s => if s == "" then false else matchesRateLimitPattern s
  | .obj _ msg _ status statusCode cause _ isE _ _ =>
      if is429 (jsCoalesce status statusCode) then true
      else if matchesRateLimitPattern (if isE then jsToString msg else "[object Object]") then
        true
      else if truthy cause then isRateLimitError cause
      else false

/-- Strict equality of the message property with the string fetch failed,
as in the source test err.message === "fetch failed". -/
def isFetchFailedMessage : ErrVal → Bool
  | .str s => s == "fetch failed"
  | _ => false

/-- The truthy-string membership test code && SET.has(code) applied to an
optional extracted code. -/
def codeInSet (set : List String) : Option String → Bool
  | some c => c != "" && set.contains c
  | none => false

mutual

/-- isTransientNetworkError together with the member scan of its
AggregateError branch (lines 130 to 161).  The branch order of the source
is kept: code lookup, the fetch-failed TypeError special case, the cause
recursion, and only then the aggregate member scan. -/
def isTransientNetworkError : ErrVal → Bool
  | .obj name msg code status statusCode cause errors isE isTE isAE =>
      if codeInSet TRANSIENT_NETWORK_CODES
          (extractErrorCodeWithCause
            (.obj name msg code status statusCode cause errors isE isTE isAE)) then true
      else if isTE && isFetchFailedMessage msg then
        if truthy cause then isTransientNetworkError cause else true
      else if truthy cause then isTransientNetworkError cause
      else if isAE && errors.length != 0 then anyTransientMember errors
      else false
  | _ => false

def anyTransientMember : List ErrVal → Bool
  | [] => false
  | e :: rest => isTransientNetworkError e || anyTransientMember rest

end

/-! ## Handler registry and the top-level policy -/

/-- Outcome of invoking a registered handler: a boolean return or a thrown
exception (which the registry swallows). -/
inductive HandlerOutcome where
  | returns (b : Bool)
  | throws
deriving DecidableEq

/-- A registered unhandled-rejection handler, as observed by the registry:
for a given reason it either returns a boolean or throws. -/
def RejectionHandler : Type := ErrVal → HandlerOutcome

/-- isUnhandledRejectionHandled (lines 170 to 184): first-true-wins scan of
the registered handlers in insertion order; a throwing handler is logged
and treated as false. -/
def isUnhandledRejectionHandled : List RejectionHandler → ErrVal → Bool
  | [], _ => false
  | h :: rest, reason =>
      match h reason with
      | .returns true => true
      | _ => isUnhandledRejectionHandled rest reason

/-- The effect the top-level policy chooses for one unhandled-rejection
event: keep the process running or terminate it with an exit code. -/
inductive ProcessDecision where
  | keepRunning
  | exitWithCode (code : Nat)
deriving DecidableEq

/-- The body of the listener installed by installUnhandledRejectionHandler
(lines 186 to 232), with the process effect reified as a decision value. -/
def unhandledRejectionPolicy (handlers : List RejectionHandler) (reason : ErrVal) :
    ProcessDecision :=
  if isUnhandledRejectionHandled handlers reason then .keepRunning
  else if isAbortError reason then .keepRunning
  else if isFatalError reason then .exitWithCode 1
  else if isConfigError reason then .exitWithCode 1
  else if isTransientNetworkError reason then .keepRunning
  else if isRateLimitError reason then .keepRunning
  else .exitWithCode 1

/-- The six classification outcomes of the spec. -/
inductive Classification where
  | Abort
  | Fatal
  | Config
  | TransientNetwork
  | RateLimit
  | Unclassified
deriving DecidableEq

/-- The ranked classification in the priority order the spec states for the
top-level policy: Abort, Fatal, Config, TransientNetwork, RateLimit,
Unclassified.  Written from the words of the spec so the policy embedded
from the source can be compared against it. -/
def classify (reason : ErrVal) : Classification :=
  if isAbortError reason then .Abort
  else if isFatalError reason then .Fatal
  else if isConfigError reason then .Config
  else if isTransientNetworkError reason then .TransientNetwork
  else if isRateLimitError reason then .RateLimit
  else .Unclassified

/-! ## Graph model for cyclic cause chains

A JavaScript object graph may be cyclic through the cause property, which
no inductive value can represent.  The graph embedding keeps the objects
in a heap and refers to them by index, so reference equality of the source
guard cause !== err becomes index equality, and the recursion of the two
predicate functions is run with explicit fuel: a result of none means the
recursion did not finish within the given depth. -/

inductive GVal where
  | null
  | undefined
  | num (n : Int)
  | str (s : String)
  | ref (i : Nat)
deriving DecidableEq, Repr

/-- One heap object, with the same probed properties as ErrVal.obj. -/
structure GObj where
  name : GVal := .undefined
  message : GVal := .undefined
  code : GVal := .undefined
  status : GVal := .undefined
  statusCode : GVal := .undefined
  cause : GVal := .undefined
  errors : List GVal := []
  isError : Bool := false
  isTypeError : Bool := false
  isAggregateError : Bool := false
deriving Repr

/-- A heap of objects addressed by list index. -/
def Heap : Type := List GObj

/-- Heap lookup; a dangling reference reads as an empty object. -/
def deref (h : Heap) (i : Nat) : GObj :=
  List.getD h i {}

/-- JavaScript truthiness over graph values. -/
def gTruthy : GVal → Bool
  | .null => false
  | .undefined => false
  | .num n => n != 0
  | .str s => s != ""
  | .ref _ => true

/-- String(v) coercion over graph values. -/
def gToString : GVal → String
  | .null => "null"
  | .undefined => "undefined"
  | .num n => Int.repr n
  | .str s => s
  | .ref _ => "[object Object]"

/-- a ?? b over graph values. -/
def gCoalesce (a b : GVal) : GVal :=
  match a with
  | .null => b
  | .undefined => b
  | v => v

/-- The status-429 test over graph values. -/
def gIs429 : GVal → Bool
  | .num n => n == 429
  | .str s => s == "429"
  | _ => false

/-- getErrorCause over the heap. -/
def gCause (h : Heap) : GVal → GVal
  | .ref i => (deref h i).cause
  | _ => .undefined

/-- Modelled from the spec: the extractErrorCode code lookup of
src/infra/errors.ts over the heap. -/
def gExtractErrorCode (h : Heap) : GVal → Option String
  | .ref i =>
      match (deref h i).code with
      | .str c => some c
      | _ => none
  | _ => none

/-- extractErrorCodeWithCause over the heap. -/
def gExtractErrorCodeWithCause (h : Heap) (v : GVal) : Option String :=
  match gExtractErrorCode h v with
  | some c => if c = "" then gExtractErrorCode h (gCause h v) else some c
  | none => gExtractErrorCode h (gCause h v)

/-- The message string isRateLimitError tests: err.message for an Error
instance, String(err) otherwise. -/
def gRateLimitMessage (h : Heap) : GVal → String
  | .ref i => if (deref h i).isError then gToString (deref h i).message else "[object Object]"
  | v => gToString v

/-- isRateLimitError over the heap, mirrored from lines 101 to 128 with the
reference-equality guard cause !== err kept literally, run with fuel. -/
def isRateLimitErrorG (h : Heap) : Nat → GVal → Option Bool
  | 0, _ => none
  | fuel + 1, v =>
      if gTruthy v = false then some false
      else if (match v with
               | .ref i => gIs429 (gCoalesce (deref h i).status (deref h i).statusCode)
               | _ => false) then some true
      else if matchesRateLimitPattern (gRateLimitMessage h v) then some true
      else
        let cause := gCause h v
        if gTruthy cause && cause != v then isRateLimitErrorG h fuel cause
        else some false

/-- Strict message equality with fetch failed over graph values. -/
def gIsFetchFailedMessage : GVal → Bool
  | .str s => s == "fetch failed"
  | _ => false

mutual

/-- isTransientNetworkError over the heap, mirrored from lines 130 to 161
with the reference-equality guard kept literally, run with fuel. -/
def isTransientNetworkErrorG (h : Heap) : Nat → GVal → Option Bool
  | 0, _ => none
  | fuel + 1, v =>
      if gTruthy v = false then some false
      else if codeInSet TRANSIENT_NETWORK_CODES (gExtractErrorCodeWithCause h v) then some true
      else if (match v with
               | .ref i => (deref h i).isTypeError && gIsFetchFailedMessage (deref h i).message
               | _ => false) then
        if gTruthy (gCause h v) then isTransientNetworkErrorG h fuel (gCause h v)
        else some true
      else if gTruthy (gCause h v) && gCause h v != v then
        isTransientNetworkErrorG h fuel (gCause h v)
      else if (match v with
               | .ref i => (deref h i).isAggregateError && (deref h i).errors.length != 0
               | _ => false) then
        anyTransientMemberG h fuel (match v with | .ref i => (deref h i).errors | _ => [])
      else some false
termination_by fuel _ => (fuel, 0)

/-- The member scan errors.some over the heap, propagating fuel
exhaustion. -/
def anyTransientMemberG (h : Heap) : Nat → List GVal → Option Bool
  | _, [] => some false
  | fuel, v :: rest =>
      match isTransientNetworkErrorG h fuel v with
      | none => none
      | some true => some true
      | some false => anyTransientMemberG h fuel rest
termination_by fuel l => (fuel, l.length + 1)

end

/-- Two plain objects that are each other's cause: object 0 has cause
ref 1 and object 1 has cause ref 0.  Neither carries a code, a status or a
matching message. -/
def cycleHeap : Heap :=
  [{ cause := GVal.ref 1 }, { cause := GVal.ref 0 }]

/-! ## The fallback orchestrator -/

/-- The retry classification of one failed attempt. -/
inductive RetryReason where
  | rateLimit
  | transientNetwork
  | other
deriving DecidableEq, Repr

/-- One record per failed attempt of a fallback run. -/
structure AttemptRecord where
  target : String
  reason : RetryReason
  message : String
deriving DecidableEq, Repr

/-- Modelled from the spec: the retry classification the orchestrator of
src/agents/model-fallback.ts (not in the repository snapshot) applies to a
failed attempt, consulting isRateLimitError and then
isTransientNetworkError. -/
def classifyRetry (e : ErrVal) : RetryReason :=
  if isRateLimitError e then .rateLimit
  else if isTransientNetworkError e then .transientNetwork
  else .other

/-- The message recorded for a failed attempt. -/
def errMessage : ErrVal → String
  | .obj _ msg _ _ _ _ _ _ _ _ => jsToString msg
  | v => jsToString v

/-- The AttemptRecord built for one failed attempt. -/
def mkAttemptRecord (t : String) (e : ErrVal) : AttemptRecord :=
  ⟨t, classifyRetry e, errMessage e⟩

/-- Result of a fallback run: success with the records of the failed
predecessors, a re-raised original error, the terminal all-models-failed
aggregate with every record, or the rejection of an empty chain. -/
inductive FallbackOutcome (R : Type) where
  | ok (result : R) (attempts : List AttemptRecord)
  | raised (err : ErrVal)
  | allFailed (attempts : List AttemptRecord)
  | invalidChain

/-- Modelled from the spec: the attempt loop of runWithModelFallback.  The
unit of work is indexed by the invocation counter; the second component of
the result is the total number of invocations.  A retryable failure with
targets remaining appends a record and continues; a retryable failure on
the last target raises the terminal aggregate with every record; any other
failure re-raises the original error at once. -/
def runFallbackAux {R : Type} (work : Nat → Except ErrVal R) :
    List String → Nat → List AttemptRecord → FallbackOutcome R × Nat
  | [], k, acc => (.allFailed acc, k)
  | t :: rest, k, acc =>
      match work k with
      | .ok r => (.ok r acc, k + 1)
      | .error e =>
          if classifyRetry e = .other then (.raised e, k + 1)
          else
            match rest with
            | [] => (.allFailed (acc ++ [mkAttemptRecord t e]), k + 1)
            | _ :: _ => runFallbackAux work rest (k + 1) (acc ++ [mkAttemptRecord t e])

/-- Modelled from the spec: runWithModelFallback of
src/agents/model-fallback.ts, over a chain of target identifiers.  An
empty chain is a configuration error rejected before any attempt. -/
def runWithModelFallback {R : Type} (work : Nat → Except ErrVal R) (chain : List String) :
    FallbackOutcome R × Nat :=
  match chain with
  | [] => (.invalidChain, 0)
  | _ :: _ => runFallbackAux work chain 0 []

/-! ## Concrete fixtures used by counterexamples and witnesses -/

/-- An error carrying status 404 and statusCode 429: the nullish-coalescing
lookup status ?? statusCode reads 404 and never consults statusCode. -/
def statusMaskedErr : ErrVal :=
  ErrVal.obj (ErrVal.str "Error") (ErrVal.str "Not found") ErrVal.undefined
    (ErrVal.num 404) (ErrVal.num 429) ErrVal.undefined [] true false false

/-- A reason that is simultaneously an abort (name AbortError) and fatal
(code ERR_OUT_OF_MEMORY). -/
def abortFatalReason : ErrVal :=
  ErrVal.obj (ErrVal.str "AbortError") (ErrVal.str "boom") (ErrVal.str "ERR_OUT_OF_MEMORY")
    ErrVal.undefined ErrVal.undefined ErrVal.undefined [] true false false

/-- An individually transient error: code ETIMEDOUT. -/
def transientMember : ErrVal :=
  ErrVal.obj (ErrVal.str "Error") (ErrVal.str "timeout") (ErrVal.str "ETIMEDOUT")
    ErrVal.undefined ErrVal.undefined ErrVal.undefined [] true false false

/-- An aggregate error bundling one transient member while also carrying a
truthy, non-transient cause. -/
def aggregateWithCause : ErrVal :=
  ErrVal.obj (ErrVal.str "AggregateError") (ErrVal.str "Multiple errors") ErrVal.undefined
    ErrVal.undefined ErrVal.undefined
    (ErrVal.obj (ErrVal.str "Error") (ErrVal.str "wrapper") ErrVal.undefined ErrVal.undefined
      ErrVal.undefined ErrVal.undefined [] true false false)
    [transientMember] true false true

/-- An error with the truthy non-fatal code ENOTFOUND whose cause carries
the fatal code ERR_OUT_OF_MEMORY. -/
def maskedFatalErr : ErrVal :=
  ErrVal.obj (ErrVal.str "Error") (ErrVal.str "dns failure") (ErrVal.str "ENOTFOUND")
    ErrVal.undefined ErrVal.undefined
    (ErrVal.obj (ErrVal.str "Error") (ErrVal.str "oom") (ErrVal.str "ERR_OUT_OF_MEMORY")
      ErrVal.undefined ErrVal.undefined ErrVal.undefined [] true false false)
    [] true false false

/-- A handler that always throws. -/
def hThrowHandler : RejectionHandler := fun _ => HandlerOutcome.throws

/-- A handler that always returns true. -/
def hTrueHandler : RejectionHandler := fun _ => HandlerOutcome.returns true

/-- A handler that always returns false. -/
def hFalseHandler : RejectionHandler := fun _ => HandlerOutcome.returns false

/-- A rate-limited error: status 429. -/
def rateLimit429Err : ErrVal :=
  ErrVal.obj (ErrVal.str "Error") (ErrVal.str "Too Many Requests") ErrVal.undefined
    (ErrVal.num 429) ErrVal.undefined ErrVal.undefined [] true false false

/-- A unit of work whose first invocation fails with a 429 error and whose
second invocation succeeds. -/
def c8Work : Nat → Except ErrVal Nat :=
  fun i => if i == 0 then Except.error rateLimit429Err else Except.ok 7

/-- An error with neither a rate-limit nor a transient-network signal. -/
def nonRetryableErr : ErrVal :=
  ErrVal.obj (ErrVal.str "Error") (ErrVal.str "Something went wrong") ErrVal.undefined
    ErrVal.undefined ErrVal.undefined ErrVal.undefined [] true false false

/-- A unit of work that always fails with the non-retryable error. -/
def c9Work : Nat → Except ErrVal Nat := fun _ => Except.error nonRetryableErr

/-! ## Helper lemmas on decimal digit strings

Needed because the source stringifies a non-string name property before
comparing it with AbortError: the decimal representation of a number never
spells AbortError. -/

lemma digitChar_isDigit (d : Nat) (h : d < 10) : (Nat.digitChar d).isDigit = true := by
  interval_cases d <;> decide

lemma toDigitsCore_digits : ∀ (f n : Nat) (ds : List Char),
    (∀ c ∈ ds, c.isDigit = true) → ∀ c ∈ Nat.toDigitsCore 10 f n ds, c.isDigit = true := by
  intro f
  induction f with
  | zero =>
      intro n ds h c hc
      rw [Nat.toDigitsCore] at hc
      exact h c hc
  | succ f ih =>
      intro n ds h c hc
      rw [Nat.toDigitsCore] at hc
      by_cases h0 : n / 10 = 0
      · rw [if_pos h0] at hc
        rcases List.mem_cons.mp hc with rfl | hm
        · exact digitChar_isDigit _ (Nat.mod_lt _ (by norm_num))
        · exact h c hm
      · rw [if_neg h0] at hc
        refine ih (n / 10) _ ?_ c hc
        intro d hd
        rcases List.mem_cons.mp hd with rfl | hm
        · exact digitChar_isDigit _ (Nat.mod_lt _ (by norm_num))
        · exact h d hm

lemma nat_repr_digits (n : Nat) : ∀ c ∈ (Nat.repr n).toList, c.isDigit = true := by
  intro c hc
  rw [Nat.repr] at hc
  exact toDigitsCore_digits (n + 1) n [] (by simp) c hc

lemma int_repr_ne_abortName (n : Int) : Int.repr n ≠ "AbortError" := by
  cases n with
  | ofNat m =>
      intro h
      rw [Int.repr] at h
      have hA : 'A' ∈ (Nat.repr m).toList := by rw [h]; decide
      have := nat_repr_digits m 'A' hA
      simp at this
  | negSucc m =>
      intro h
      rw [Int.repr] at h
      have hd : ('-' :: (Nat.repr (Nat.succ m)).data) = "AbortError".data :=
        congrArg String.data h
      simp at hd

lemma nameString_eq_abort_iff (v : ErrVal) :
    nameString v = "AbortError" ↔ v = ErrVal.str "AbortError" := by
  cases v with
  | null => simp [nameString, jsToString]
  | undefined => simp [nameString]
  | num n =>
      simp only [nameString, jsToString]
      constructor
      · intro h; exact absurd h (int_repr_ne_abortName n)
      · intro h; exact absurd h (by simp)
  | str s => simp [nameString, jsToString]
  | obj a b c d e f g h i j => simp [nameString, jsToString]

lemma strMessage_eq_abort_iff (v : ErrVal) :
    strMessage v = "This operation was aborted" ↔
      v = ErrVal.str "This operation was aborted" := by
  cases v <;> simp [strMessage]

lemma anyTransientMember_iff (l : List ErrVal) :
    anyTransientMember l = true ↔ ∃ e ∈ l, isTransientNetworkError e = true := by
  induction l with
  | nil => simp [anyTransientMember]
  | cons e rest ih => simp [anyTransientMember, Bool.or_eq_true, ih]

lemma runFallbackAux_success {R : Type} (work : Nat → Except ErrVal R) (r : R) :
    ∀ (errs : List ErrVal) (ts : List String) (k : Nat) (acc : List AttemptRecord),
      ts.length = errs.length + 1 →
      (∀ i, (hi : i < errs.length) → work (k + i) = Except.error (errs.get ⟨i, hi⟩)) →
      (∀ e ∈ errs, classifyRetry e ≠ RetryReason.other) →
      work (k + errs.length) = Except.ok r →
      runFallbackAux work ts k acc =
        (FallbackOutcome.ok r (acc ++ List.zipWith mkAttemptRecord ts errs), k + ts.length) := by
  intro errs
  induction errs with
  | nil =>
      intro ts k acc hlen herr hretry hok
      match ts, hlen with
      | [t], _ =>
          rw [runFallbackAux]
          rw [show work k = Except.ok r by simpa using hok]
          simp
  | cons e es ih =>
      intro ts k acc hlen herr hretry hok
      match ts with
      | t :: ts' =>
          have hlen' : ts'.length = es.length + 1 := by simpa using hlen
          have h0 : work k = Except.error e := by simpa using herr 0 (by simp)
          have hcl : classifyRetry e ≠ RetryReason.other := hretry e (by simp)
          match ts', hlen' with
          | t2 :: ts'', hlen2 =>
            have step : runFallbackAux work (t :: t2 :: ts'') k acc =
                runFallbackAux work (t2 :: ts'') (k + 1) (acc ++ [mkAttemptRecord t e]) := by
              rw [runFallbackAux, h0]
              simp [hcl]
            have herr' : ∀ i, (hi : i < es.length) →
                work ((k + 1) + i) = Except.error (es.get ⟨i, hi⟩) := by
              intro i hi
              have := herr (i + 1) (by simpa using Nat.succ_lt_succ hi)
              have harith : k + (i + 1) = (k + 1) + i := by omega
              rw [harith] at this
              simpa using this
            have hok' : work ((k + 1) + es.length) = Except.ok r := by
              have harith : k + (e :: es).length = (k + 1) + es.length := by simp; omega
              rw [harith] at hok
              exact hok
            have hretry' : ∀ x ∈ es, classifyRetry x ≠ RetryReason.other :=
              fun x hx => hretry x (List.mem_cons_of_mem e hx)
            rw [step, ih (t2 :: ts'') (k + 1) (acc ++ [mkAttemptRecord t e]) hlen2
              herr' hretry' hok']
            simp [List.zipWith]
            omega

lemma zipWith_mkAttemptRecord_targets :
    ∀ (ts : List String) (errs : List ErrVal),
      (List.zipWith mkAttemptRecord ts errs).map AttemptRecord.target
        = ts.take errs.length := by
  intro ts
  induction ts with
  | nil => intro errs; simp
  | cons t ts ih =>
      intro errs
      cases errs with
      | nil => simp
      | cons e es => simp [mkAttemptRecord, ih]

/-! ## Claim theorems -/

/-- Claim C1: for every rejection reason not claimed by a registered
handler, the top-level policy classifies in the exact priority order
Abort, Fatal, Config, TransientNetwork, RateLimit, Unclassified, and the
process exits with code 1 exactly when the first matching classification
is Fatal, Config or Unclassified; a reason satisfying isAbortError never
causes an exit even when it also carries a fatal code. -/
theorem unhandled_policy_exit_iff (handlers : List RejectionHandler) (reason : ErrVal)
    (hun : isUnhandledRejectionHandled handlers reason = false) :
    (unhandledRejectionPolicy handlers reason = ProcessDecision.exitWithCode 1 ↔
      (classify reason = Classification.Fatal ∨ classify reason = Classification.Config ∨
        classify reason = Classification.Unclassified))
    ∧ (isAbortError reason = true →
        unhandledRejectionPolicy handlers reason = ProcessDecision.keepRunning) := by
  unfold unhandledRejectionPolicy classify
  rw [hun]
  cases hA : isAbortError reason <;>
    cases hF : isFatalError reason <;>
      cases hC : isConfigError reason <;>
        cases hT : isTransientNetworkError reason <;>
          cases hR : isRateLimitError reason <;> simp

/-- Witness for C1 at the empty registry and a reason that is both an
abort and fatal: the hypothesis holds by computation and the policy keeps
the process running. -/
theorem unhandled_policy_exit_iff_witness :
    isUnhandledRejectionHandled [] abortFatalReason = false ∧
    ((unhandledRejectionPolicy [] abortFatalReason = ProcessDecision.exitWithCode 1 ↔
        (classify abortFatalReason = Classification.Fatal ∨
          classify abortFatalReason = Classification.Config ∨
          classify abortFatalReason = Classification.Unclassified))
      ∧ (isAbortError abortFatalReason = true →
          unhandledRejectionPolicy [] abortFatalReason = ProcessDecision.keepRunning)) :=
  ⟨rfl, unhandled_policy_exit_iff [] abortFatalReason rfl⟩

/-- Counterexample for C2: an error exposing statusCode 429 on which
isRateLimitError is nevertheless false, because its status property is the
non-nullish value 404 and status ?? statusCode never reads statusCode. -/
theorem isRateLimitError_statusCode_masked :
    isRateLimitError statusMaskedErr = false := by decide

/-- Claim C2 as amended: isRateLimitError is true regardless of message
content whenever the status property is 429 (number or string), or the
status property is nullish and the statusCode property is 429. -/
theorem isRateLimitError_status429 (name msg code status statusCode cause : ErrVal)
    (errors : List ErrVal) (isE isTE isAE : Bool)
    (h : status = ErrVal.num 429 ∨ status = ErrVal.str "429" ∨
         ((status = ErrVal.null ∨ status = ErrVal.undefined) ∧
          (statusCode = ErrVal.num 429 ∨ statusCode = ErrVal.str "429"))) :
    isRateLimitError (ErrVal.obj name msg code status statusCode cause errors isE isTE isAE)
      = true := by
  have h429 : is429 (jsCoalesce status statusCode) = true := by
    rcases h with rfl | rfl | ⟨hs, hc⟩
    · rfl
    · rfl
    · rcases hs with rfl | rfl <;> rcases hc with rfl | rfl <;> rfl
  rw [isRateLimitError, if_pos h429]

/-- Witness for the amended C2 at a numeric status 429 with an unrelated
message. -/
theorem isRateLimitError_status429_witness :
    ((ErrVal.num 429 : ErrVal) = ErrVal.num 429 ∨ (ErrVal.num 429 : ErrVal) = ErrVal.str "429" ∨
      (((ErrVal.num 429 : ErrVal) = ErrVal.null ∨ (ErrVal.num 429 : ErrVal) = ErrVal.undefined) ∧
        ((ErrVal.undefined : ErrVal) = ErrVal.num 429 ∨ (ErrVal.undefined : ErrVal) = ErrVal.str "429")))
    ∧ isRateLimitError (ErrVal.obj (ErrVal.str "Error") (ErrVal.str "Not found") ErrVal.undefined
        (ErrVal.num 429) ErrVal.undefined ErrVal.undefined [] true false false) = true :=
  ⟨Or.inl rfl,
    isRateLimitError_status429 (ErrVal.str "Error") (ErrVal.str "Not found") ErrVal.undefined
      (ErrVal.num 429) ErrVal.undefined ErrVal.undefined [] true false false (Or.inl rfl)⟩

/-- Claim C3, evaluated at the failing input: on the two-object cause
cycle of cycleHeap, the recursion of isRateLimitError and of
isTransientNetworkError never reaches a result at any recursion depth, so
neither call terminates; the single-step guard cause !== err only stops
self-cycles. -/
theorem cyclic_cause_chain_diverges :
    ∀ fuel : Nat,
      isRateLimitErrorG cycleHeap fuel (GVal.ref 0) = none ∧
      isRateLimitErrorG cycleHeap fuel (GVal.ref 1) = none ∧
      isTransientNetworkErrorG cycleHeap fuel (GVal.ref 0) = none ∧
      isTransientNetworkErrorG cycleHeap fuel (GVal.ref 1) = none := by
  intro fuel
  induction fuel with
  | zero =>
      refine ⟨rfl, rfl, ?_, ?_⟩ <;> rw [isTransientNetworkErrorG]
  | succ n ih =>
      obtain ⟨ih0, ih1, ih2, ih3⟩ := ih
      refine ⟨?_, ?_, ?_, ?_⟩
      · rw [isRateLimitErrorG]
        exact ih1
      · rw [isRateLimitErrorG]
        exact ih0
      · rw [isTransientNetworkErrorG]
        simpa [cycleHeap, deref, gCause, gTruthy, gExtractErrorCodeWithCause,
          gExtractErrorCode, codeInSet, gIsFetchFailedMessage] using ih3
      · rw [isTransientNetworkErrorG]
        simpa [cycleHeap, deref, gCause, gTruthy, gExtractErrorCodeWithCause,
          gExtractErrorCode, codeInSet, gIsFetchFailedMessage] using ih2

/-- Counterexample for C4: the member of aggregateWithCause is
individually transient, yet isTransientNetworkError on the aggregate is
false, because the truthy cause is followed first and the member list is
never inspected. -/
theorem isTransientNetworkError_aggregate_cause_bypass :
    isTransientNetworkError transientMember = true ∧
    isTransientNetworkError aggregateWithCause = false :=
  ⟨by decide, by decide⟩

/-- Claim C4 as amended: for an aggregate error that carries no code and
no cause and is not a TypeError, isTransientNetworkError is true exactly
when at least one contained member error is individually transient. -/
theorem isTransientNetworkError_aggregate (name msg status statusCode : ErrVal)
    (errs : List ErrVal) (isE : Bool) :
    isTransientNetworkError
        (ErrVal.obj name msg ErrVal.undefined status statusCode ErrVal.undefined errs isE false true)
      = true ↔ ∃ e ∈ errs, isTransientNetworkError e = true := by
  rw [isTransientNetworkError]
  simp only [extractErrorCodeWithCause, extractErrorCode, getErrorCause, codeInSet,
    truthy, Bool.false_and, if_false, Bool.true_and]
  cases errs with
  | nil => simp [anyTransientMember]
  | cons e es => simp [anyTransientMember_iff]

/-- Claim C5: isAbortError on an object is true exactly when the name
property is the string AbortError or the message property is exactly the
string This operation was aborted; the near-miss messages aborted,
Operation aborted and Request was aborted all yield false. -/
theorem isAbortError_exact_match :
    (∀ name msg code status statusCode cause errors isE isTE isAE,
        isAbortError (ErrVal.obj name msg code status statusCode cause errors isE isTE isAE)
            = true ↔
          (name = ErrVal.str "AbortError" ∨
            msg = ErrVal.str "This operation was aborted"))
    ∧ isAbortError (ErrVal.obj (ErrVal.str "Error") (ErrVal.str "aborted")
        ErrVal.undefined ErrVal.undefined ErrVal.undefined ErrVal.undefined [] true false false) = false
    ∧ isAbortError (ErrVal.obj (ErrVal.str "Error") (ErrVal.str "Operation aborted")
        ErrVal.undefined ErrVal.undefined ErrVal.undefined ErrVal.undefined [] true false false) = false
    ∧ isAbortError (ErrVal.obj (ErrVal.str "Error") (ErrVal.str "Request was aborted")
        ErrVal.undefined ErrVal.undefined ErrVal.undefined ErrVal.undefined [] true false false) = false := by
  refine ⟨?_, by decide, by decide, by decide⟩
  intro name msg code status statusCode cause errors isE isTE isAE
  simp only [isAbortError]
  by_cases hn : nameString name = "AbortError"
  · rw [if_pos hn]
    simp only [true_iff]
    exact Or.inl ((nameString_eq_abort_iff name).mp hn)
  · rw [if_neg hn, decide_eq_true_eq]
    constructor
    · intro h
      exact Or.inr ((strMessage_eq_abort_iff msg).mp h)
    · rintro (h | h)
      · exact absurd ((nameString_eq_abort_iff name).mpr h) hn
      · exact (strMessage_eq_abort_iff msg).mpr h

/-- Counterexample for C6: an error whose own code is the truthy non-fatal
ENOTFOUND and whose cause carries the fatal code ERR_OUT_OF_MEMORY is not
fatal, because a truthy own code stops the lookup before the cause. -/
theorem isFatalError_cause_masked : isFatalError maskedFatalErr = false := by decide

/-- Claim C6 as amended: isFatalError is decided by the single code of the
one-level lookup, namely the own code when it is a non-empty string and
otherwise the code of the one-level cause: a fatal own code gives true, a
fatal code on the cause gives true only when the own code is absent, a
truthy non-fatal own code gives false even over a fatal cause, and the
lookup never descends two levels. -/
theorem isFatalError_one_level (n m status sc : ErrVal) (errs : List ErrVal)
    (iE iTE iAE : Bool)
    (n2 m2 s2 sc2 c2v : ErrVal) (errs2 : List ErrVal) (iE2 iTE2 iAE2 : Bool)
    (c : String) :
    (c ∈ FATAL_ERROR_CODES →
      ∀ cv : ErrVal,
        isFatalError (ErrVal.obj n m (ErrVal.str c) status sc cv errs iE iTE iAE) = true)
    ∧ (c ∈ FATAL_ERROR_CODES →
        isFatalError (ErrVal.obj n m ErrVal.undefined status sc
          (ErrVal.obj n2 m2 (ErrVal.str c) s2 sc2 c2v errs2 iE2 iTE2 iAE2) errs iE iTE iAE)
          = true)
    ∧ (c ≠ "" → c ∉ FATAL_ERROR_CODES →
        isFatalError (ErrVal.obj n m (ErrVal.str c) status sc
          (ErrVal.obj n2 m2 (ErrVal.str "ERR_OUT_OF_MEMORY") s2 sc2 c2v errs2 iE2 iTE2 iAE2)
          errs iE iTE iAE) = false)
    ∧ isFatalError (ErrVal.obj n m ErrVal.undefined status sc
        (ErrVal.obj n2 m2 ErrVal.undefined s2 sc2
          (ErrVal.obj (ErrVal.str "E") (ErrVal.str "x") (ErrVal.str "ERR_OUT_OF_MEMORY")
            ErrVal.undefined ErrVal.undefined ErrVal.undefined [] true false false)
          errs2 iE2 iTE2 iAE2) errs iE iTE iAE) = false := by
  have hnonempty : ∀ d ∈ FATAL_ERROR_CODES, d ≠ "" := by decide
  refine ⟨?_, ?_, ?_, ?_⟩
  · intro hc cv
    have hne : c ≠ "" := hnonempty c hc
    simp [isFatalError, extractErrorCodeWithCause, extractErrorCode, hne, hc]
  · intro hc
    simp [isFatalError, extractErrorCodeWithCause, extractErrorCode, getErrorCause, hc]
  · intro hne hnc
    simp [isFatalError, extractErrorCodeWithCause, extractErrorCode, hne, hnc]
  · simp [isFatalError, extractErrorCodeWithCause, extractErrorCode, getErrorCause]

/-- Witness for the amended C6 at the code ERR_OUT_OF_MEMORY (fatal, on
the error and on a cause) and ENOTFOUND (truthy non-fatal, masking a fatal
cause). -/
theorem isFatalError_one_level_witness :
    ("ERR_OUT_OF_MEMORY" ∈ FATAL_ERROR_CODES)
    ∧ isFatalError (ErrVal.obj (ErrVal.str "Error") (ErrVal.str "oom")
        (ErrVal.str "ERR_OUT_OF_MEMORY") ErrVal.undefined ErrVal.undefined ErrVal.undefined []
        true false false) = true
    ∧ isFatalError (ErrVal.obj (ErrVal.str "Error") (ErrVal.str "wrapped") ErrVal.undefined
        ErrVal.undefined ErrVal.undefined
        (ErrVal.obj (ErrVal.str "Error") (ErrVal.str "oom") (ErrVal.str "ERR_OUT_OF_MEMORY")
          ErrVal.undefined ErrVal.undefined ErrVal.undefined [] true false false)
        [] true false false) = true
    ∧ ("ENOTFOUND" ≠ "" ∧ "ENOTFOUND" ∉ FATAL_ERROR_CODES
        ∧ isFatalError (ErrVal.obj (ErrVal.str "Error") (ErrVal.str "dns")
            (ErrVal.str "ENOTFOUND") ErrVal.undefined ErrVal.undefined
            (ErrVal.obj (ErrVal.str "Error") (ErrVal.str "oom")
              (ErrVal.str "ERR_OUT_OF_MEMORY") ErrVal.undefined ErrVal.undefined ErrVal.undefined []
              true false false)
            [] true false false) = false) := by
  have h := isFatalError_one_level (ErrVal.str "Error") (ErrVal.str "oom")
    ErrVal.undefined ErrVal.undefined []
    true false false
    (ErrVal.str "Error") (ErrVal.str "oom") ErrVal.undefined ErrVal.undefined ErrVal.undefined []
    true false false "ERR_OUT_OF_MEMORY"
  have h2 := isFatalError_one_level (ErrVal.str "Error") (ErrVal.str "dns")
    ErrVal.undefined ErrVal.undefined []
    true false false
    (ErrVal.str "Error") (ErrVal.str "oom") ErrVal.undefined ErrVal.undefined ErrVal.undefined []
    true false false "ENOTFOUND"
  refine ⟨by decide, h.1 (by decide) ErrVal.undefined, ?_, by decide, by decide,
    h2.2.2.1 (by decide) (by decide)⟩
  have h3 := isFatalError_one_level (ErrVal.str "Error") (ErrVal.str "wrapped")
    ErrVal.undefined ErrVal.undefined []
    true false false
    (ErrVal.str "Error") (ErrVal.str "oom") ErrVal.undefined ErrVal.undefined ErrVal.undefined []
    true false false "ERR_OUT_OF_MEMORY"
  exact h3.2.1 (by decide)

/-- Claim C7: the registry scan visits handlers in insertion order and
returns true at the first handler returning true independently of every
later handler, a throwing handler is treated as returning false and the
scan continues, and when no handler returns true the result is false. -/
theorem isUnhandledRejectionHandled_first_true
    (pre post rest : List RejectionHandler) (h g : RejectionHandler) (r : ErrVal) :
    ((∀ f ∈ pre, f r ≠ HandlerOutcome.returns true) → h r = HandlerOutcome.returns true →
        isUnhandledRejectionHandled (pre ++ h :: post) r = true)
    ∧ (g r = HandlerOutcome.throws →
        isUnhandledRejectionHandled (g :: rest) r = isUnhandledRejectionHandled rest r)
    ∧ ((∀ f ∈ rest, f r ≠ HandlerOutcome.returns true) →
        isUnhandledRejectionHandled rest r = false) := by
  refine ⟨?_, ?_, ?_⟩
  · intro hpre hh
    induction pre with
    | nil => simp [isUnhandledRejectionHandled, hh]
    | cons p ps ih =>
        have hp := hpre p (List.mem_cons_self p ps)
        have ih2 := ih (fun f hf => hpre f (List.mem_cons_of_mem p hf))
        rw [List.cons_append, isUnhandledRejectionHandled]
        cases hpr : p r with
        | returns b =>
            cases b with
            | true => exact absurd hpr hp
            | false => simpa using ih2
        | throws => simpa using ih2
  · intro hg
    rw [isUnhandledRejectionHandled, hg]
  · intro hrest
    induction rest with
    | nil => rfl
    | cons p ps ih =>
        have hp := hrest p (List.mem_cons_self p ps)
        have ih2 := ih (fun f hf => hrest f (List.mem_cons_of_mem p hf))
        rw [isUnhandledRejectionHandled]
        cases hpr : p r with
        | returns b =>
            cases b with
            | true => exact absurd hpr hp
            | false => simpa using ih2
        | throws => simpa using ih2

/-- Witness for C7: with a throwing first handler, a true second handler
and a false third handler the scan returns true, a leading throwing
handler is skipped, and a registry with no true handler returns false. -/
theorem isUnhandledRejectionHandled_first_true_witness :
    (∀ f ∈ [hThrowHandler], f ErrVal.null ≠ HandlerOutcome.returns true) ∧
    hTrueHandler ErrVal.null = HandlerOutcome.returns true ∧
    isUnhandledRejectionHandled ([hThrowHandler] ++ hTrueHandler :: [hFalseHandler])
      ErrVal.null = true ∧
    (hThrowHandler ErrVal.null = HandlerOutcome.throws ∧
      isUnhandledRejectionHandled (hThrowHandler :: [hFalseHandler]) ErrVal.null
        = isUnhandledRejectionHandled [hFalseHandler] ErrVal.null) ∧
    ((∀ f ∈ [hThrowHandler, hFalseHandler], f ErrVal.null ≠ HandlerOutcome.returns true) ∧
      isUnhandledRejectionHandled [hThrowHandler, hFalseHandler] ErrVal.null = false) := by
  have hpre : ∀ f ∈ [hThrowHandler], f ErrVal.null ≠ HandlerOutcome.returns true := by
    intro f hf
    have : f = hThrowHandler := by simpa using hf
    subst this
    simp [hThrowHandler]
  have hrest : ∀ f ∈ [hThrowHandler, hFalseHandler],
      f ErrVal.null ≠ HandlerOutcome.returns true := by
    intro f hf
    rcases (by simpa using hf : f = hThrowHandler ∨ f = hFalseHandler) with rfl | rfl <;>
      simp [hThrowHandler, hFalseHandler]
  exact ⟨hpre, rfl,
    (isUnhandledRejectionHandled_first_true [hThrowHandler] [hFalseHandler] [hFalseHandler]
      hTrueHandler hThrowHandler ErrVal.null).1 hpre rfl,
    ⟨rfl, (isUnhandledRejectionHandled_first_true [] [] [hFalseHandler]
      hTrueHandler hThrowHandler ErrVal.null).2.1 rfl⟩,
    ⟨hrest, (isUnhandledRejectionHandled_first_true [] [] [hThrowHandler, hFalseHandler]
      hTrueHandler hThrowHandler ErrVal.null).2.2 hrest⟩⟩

/-- Claim C8: over a chain of length K whose first K minus 1 attempts fail
retryably (rate limit or transient network) and whose final attempt
succeeds, the orchestrator returns the success result with exactly K
minus 1 attempt records, one per failed predecessor in chain order, after
exactly K invocations of the unit of work. -/
theorem runWithModelFallback_retryable_chain {R : Type} (work : Nat → Except ErrVal R)
    (r : R) (ts : List String) (errs : List ErrVal)
    (hlen : ts.length = errs.length + 1)
    (herr : ∀ i, (hi : i < errs.length) → work i = Except.error (errs.get ⟨i, hi⟩))
    (hretry : ∀ e ∈ errs, isRateLimitError e = true ∨ isTransientNetworkError e = true)
    (hok : work errs.length = Except.ok r) :
    runWithModelFallback work ts =
      (FallbackOutcome.ok r (List.zipWith mkAttemptRecord ts errs), ts.length)
    ∧ (List.zipWith mkAttemptRecord ts errs).length = ts.length - 1
    ∧ (List.zipWith mkAttemptRecord ts errs).map AttemptRecord.target
        = ts.take errs.length := by
  have hretry2 : ∀ e ∈ errs, classifyRetry e ≠ RetryReason.other := by
    intro e he
    rcases hretry e he with h | h
    · simp [classifyRetry, h]
    · simp only [classifyRetry, h]
      split <;> simp
  have main := runFallbackAux_success work r errs ts 0 [] hlen
    (by intro i hi; simpa using herr i hi) hretry2 (by simpa using hok)
  refine ⟨?_, ?_, zipWith_mkAttemptRecord_targets ts errs⟩
  · match ts, hlen with
    | t :: ts', _ =>
        rw [runWithModelFallback]
        simpa using main
  · rw [List.length_zipWith]
    omega

/-- Witness for C8 on a chain of length two whose first attempt fails with
status 429 and whose second attempt succeeds with the value seven. -/
theorem runWithModelFallback_retryable_chain_witness :
    (["primary", "fallback"].length = [rateLimit429Err].length + 1)
    ∧ (isRateLimitError rateLimit429Err = true ∨
        isTransientNetworkError rateLimit429Err = true)
    ∧ (runWithModelFallback c8Work ["primary", "fallback"] =
        (FallbackOutcome.ok 7
          (List.zipWith mkAttemptRecord ["primary", "fallback"] [rateLimit429Err]), 2)
      ∧ (List.zipWith mkAttemptRecord ["primary", "fallback"] [rateLimit429Err]).length
          = ["primary", "fallback"].length - 1
      ∧ (List.zipWith mkAttemptRecord ["primary", "fallback"] [rateLimit429Err]).map
          AttemptRecord.target = ["primary", "fallback"].take [rateLimit429Err].length) := by
  have herr : ∀ i, (hi : i < ([rateLimit429Err] : List ErrVal).length) →
      c8Work i = Except.error (([rateLimit429Err] : List ErrVal).get ⟨i, hi⟩) := by
    intro i hi
    have : i = 0 := by simpa using Nat.lt_one_iff.mp (by simpa using hi)
    subst this
    rfl
  have hretry : ∀ e ∈ ([rateLimit429Err] : List ErrVal),
      isRateLimitError e = true ∨ isTransientNetworkError e = true := by
    intro e he
    have : e = rateLimit429Err := by simpa using he
    subst this
    exact Or.inl (by decide)
  exact ⟨rfl, Or.inl (by decide),
    runWithModelFallback_retryable_chain c8Work 7 ["primary", "fallback"]
      [rateLimit429Err] rfl herr hretry rfl⟩

/-- Claim C9: when the first attempt fails with an error that is neither
rate limit nor transient network, the orchestrator performs exactly one
invocation and re-raises that same error value, however many fallback
targets remain. -/
theorem runWithModelFallback_nonretryable {R : Type} (work : Nat → Except ErrVal R)
    (t : String) (rest : List String) (e : ErrVal)
    (h0 : work 0 = Except.error e)
    (hrl : isRateLimitError e = false)
    (htn : isTransientNetworkError e = false) :
    runWithModelFallback work (t :: rest) = (FallbackOutcome.raised e, 1) := by
  have hcl : classifyRetry e = RetryReason.other := by
    simp [classifyRetry, hrl, htn]
  rw [runWithModelFallback, runFallbackAux, h0]
  simp [hcl]

/-- Witness for C9 on a chain of length three whose first attempt fails
with a plain error carrying no retry signal. -/
theorem runWithModelFallback_nonretryable_witness :
    (c9Work 0 = Except.error nonRetryableErr)
    ∧ isRateLimitError nonRetryableErr = false
    ∧ isTransientNetworkError nonRetryableErr = false
    ∧ runWithModelFallback c9Work ["primary", "fallback", "fallback2"] =
        (FallbackOutcome.raised nonRetryableErr, 1) :=
  ⟨rfl, by decide, by decide,
    runWithModelFallback_nonretryable c9Work "primary" ["fallback", "fallback2"]
      nonRetryableErr rfl (by decide) (by decide)⟩

/-- Claim C10: isAbortError is false on every non-object value, including
null, undefined, every number and every string, even the exact string
This operation was aborted. -/
theorem isAbortError_non_object :
    (∀ n : Int, isAbortError (ErrVal.num n) = false)
    ∧ (∀ s : String, isAbortError (ErrVal.str s) = false)
    ∧ isAbortError ErrVal.null = false
    ∧ isAbortError ErrVal.undefined = false
    ∧ isAbortError (ErrVal.str "This operation was aborted") = false :=
  ⟨fun _ => rfl, fun _ => rfl, rfl, rfl, rfl⟩

end OpenClaw
